import Mathlib

/-!
Shallow embedding of the twist-mcp-server repository (Python): a set of
MCP tool handlers (`src/inbox.py`, `src/threads.py`) that marshal their
arguments into a parameter mapping and issue a single HTTP request to the
Twist API through `twist_request` (`src/api.py`), plus the tool
registration performed at startup (`main.py`).

Modelling conventions:
* Python `None`-able arguments become `Option` values; Python dicts of
  request parameters become association lists (`Params`) with string keys,
  built in the same insertion order as the source.
* The HTTP layer is a function `HttpFn : HttpReq -> Except String PyObj`
  supplied as a parameter: `Except.error msg` models a raised exception
  whose `str()` is `msg`, `Except.ok v` models a decoded JSON payload.
* Decoded JSON payloads are modelled by `PyObj` exactly as far as the
  tools inspect them: truthiness (`if not data:`) and attribute access
  (`.get`, which raises `AttributeError` on non-dicts).  List and dict
  contents beyond that are kept abstract (a length, or `String x Int`
  entries for the `id` lookup of `threads/add`).
* Environment variables (`TWIST_API_TOKEN`, `TWIST_WORKSPACE_ID`) are
  `Option String` parameters; Python truthiness of `os.getenv` results
  (`None` and `""` are both falsy) is `pyStrTruthy`.
* Each tool returns its result together with the list of HTTP requests it
  issued, so that "no network call attempted" is the statement that this
  list is empty.
-/

/-- Values that the tools place into an outgoing parameter mapping:
integers, strings, booleans, lists of integers, and (for `threads/add` /
`threads/update`) lists of dictionaries, which the tools never inspect and
which are therefore modelled opaquely by a numeric tag. -/
inductive PValue where
  | pint (n : Int)
  | pstr (s : String)
  | pbool (b : Bool)
  | pintList (l : List Int)
  | pdictList (tag : Nat)
deriving DecidableEq

/-- Parameter mapping sent to the gateway, in insertion order, mirroring a
Python dict with string keys. -/
abbrev Params := List (String × PValue)

/-- Contribution of one optional argument to a parameter mapping: absent
arguments contribute nothing, supplied ones contribute their key/value
pair (the `if x is not None` / comprehension filter in the source). -/
def optP (k : String) (o : Option PValue) : Params :=
  match o with
  | none => []
  | some v => [(k, v)]

/-- Lookup of a key in a parameter mapping (Python `params[k]` /
`k in params`, as an `Option`). -/
def dictGet : Params → String → Option PValue
  | [], _ => none
  | (k1, v) :: d, k => if k1 = k then some v else dictGet d k

/-- Assignment `params[k] = v` on a Python dict: replaces the value of an
existing key in place, otherwise appends the new pair at the end. -/
def dictSet : Params → String → PValue → Params
  | [], k, v => [(k, v)]
  | (k1, v1) :: d, k, v =>
      if k1 = k then (k1, v) :: d else (k1, v1) :: dictSet d k v

/-- Decoded JSON payload, as far as the tools inspect one: truthiness and
(for `threads/add`) the `.get` attribute, which only dicts have.  List
contents are abstracted to a length, dict entries to `String x Int`. -/
inductive PyObj where
  | pynone
  | pybool (b : Bool)
  | pyint (n : Int)
  | pystr (s : String)
  | pylist (len : Nat)
  | pydict (entries : List (String × Int))
deriving DecidableEq

/-- Python truthiness of a decoded payload (`if not data:`). -/
def PyObj.truthy : PyObj → Bool
  | .pynone => false
  | .pybool b => b
  | .pyint n => !(n == 0)
  | .pystr s => !(s == "")
  | .pylist n => !(n == 0)
  | .pydict l => !l.isEmpty

/-- Whether a decoded payload is a dict (the only payloads with a `.get`
attribute). -/
def PyObj.isDict : PyObj → Bool
  | .pydict _ => true
  | _ => false

/-- Python type name of a payload, as it appears in `AttributeError`
messages. -/
def pyTypeName : PyObj → String
  | .pynone => "NoneType"
  | .pybool _ => "bool"
  | .pyint _ => "int"
  | .pystr _ => "str"
  | .pylist _ => "list"
  | .pydict _ => "dict"

/-- Message of the `AttributeError` raised by `obj.get(...)` when `obj`
is not a dict (`str()` of the exception). -/
def pyNoGetAttrMsg (o : PyObj) : String :=
  "\x27" ++ pyTypeName o ++ "\x27 object has no attribute \x27get\x27"

/-- Model of `thread_data.get(\x27id\x27)` in `twist_threads_add`: on a
dict it returns the entry (or `None`), on any other payload it raises
`AttributeError`. -/
def pyGetId : PyObj → Except String (Option Int)
  | .pydict l => Except.ok ((l.find? (fun p => p.1 = "id")).map (fun p => p.2))
  | o => Except.error (pyNoGetAttrMsg o)

/-- Python `str()` of a parameter value, used by the source only when
interpolating `params[...]` entries (always ints or strings there) into
success messages; the dict-list rendering is a placeholder for payloads
the source never interpolates. -/
def PValue.render : PValue → String
  | .pint n => toString n
  | .pstr s => s
  | .pbool b => if b then "True" else "False"
  | .pintList l => "[" ++ String.intercalate ", " (l.map toString) ++ "]"
  | .pdictList t => "<dict list " ++ toString t ++ ">"

/-- Result of one tool invocation: either a human-readable string or the
decoded payload returned directly. -/
inductive ToolResult where
  | rStr (s : String)
  | rData (d : PyObj)
deriving DecidableEq

/-- One outbound HTTP request, as `twist_request` builds it: target URL,
bearer token, HTTP method, and the parameters either as a query string
(GET) or as a form body (POST). -/
structure HttpReq where
  url : String
  bearer : String
  httpMethod : String
  queryParams : Params
  bodyParams : Params
deriving DecidableEq

/-- Behaviour of the HTTP transport plus status check plus JSON decode
(`requests.get`/`requests.post`, `raise_for_status`, `.json()`): an
exception message, or the decoded payload. -/
abbrev HttpFn := HttpReq → Except String PyObj

/-- Python truthiness of an `os.getenv` result: `None` and the empty
string are falsy. -/
def pyStrTruthy : Option String → Bool
  | none => false
  | some s => !(s == "")

/-- Python truthiness of an optional integer argument: `None` and `0` are
falsy. -/
def pyOptIntTruthy : Option Int → Bool
  | none => false
  | some n => !(n == 0)

/-- Fixed base URL of the Twist API (`src/api.py`). -/
def baseUrl : String := "https://api.twist.com/api/v3/"

/-- Credential resolution (`get_api_client` in `src/api.py`): returns the
`TWIST_API_TOKEN` environment value, or raises `ValueError` when it is
unset or empty (`if not TWIST_API_TOKEN`). -/
def get_api_client (envToken : Option String) : Except String String :=
  if pyStrTruthy envToken then Except.ok (envToken.getD "")
  else Except.error "TWIST_API_TOKEN environment variable is required"

/-- Request gateway (`twist_request` in `src/api.py`): resolves the token
(falling back to `get_api_client` when `None`), then for GET sends the
parameters as a query string, for POST as a form body, and for any other
method raises `ValueError` before any network activity; transport and
status failures from `http` pass through as raised exceptions.  The
second component lists the HTTP requests actually issued. -/
def twist_request (http : HttpFn) (envToken : Option String) (endpoint : String)
    (params : Params) (token : Option String) (method : String) :
    Except String PyObj × List HttpReq :=
  match (match token with
         | some t => Except.ok t
         | none => get_api_client envToken) with
  | Except.error e => (Except.error e, [])
  | Except.ok t =>
      if method = "GET" then
        let req : HttpReq := ⟨baseUrl ++ endpoint, t, "GET", params, []⟩
        (http req, [req])
      else if method = "POST" then
        let req : HttpReq := ⟨baseUrl ++ endpoint, t, "POST", [], params⟩
        (http req, [req])
      else
        (Except.error ("Unsupported HTTP method: " ++ method), [])

/-- Shape of the GET request `twist_request` issues for a given endpoint,
token and parameter mapping. -/
def mkGetReq (endpoint tok : String) (p : Params) : HttpReq :=
  ⟨baseUrl ++ endpoint, tok, "GET", p, []⟩

/-- Shape of the POST request `twist_request` issues for a given endpoint,
token and parameter mapping. -/
def mkPostReq (endpoint tok : String) (p : Params) : HttpReq :=
  ⟨baseUrl ++ endpoint, tok, "POST", [], p⟩

/-- Transport stub that raises on every request, with message `e`. -/
def raisingHttp (e : String) : HttpFn := fun _ => Except.error e

/-- Transport stub that succeeds on every request with payload `r`. -/
def constHttp (r : PyObj) : HttpFn := fun _ => Except.ok r

/-- Transport stub returning an arbitrary fixed successful payload, used
where the response content is irrelevant. -/
def stubHttp : HttpFn := fun _ => Except.ok PyObj.pynone

/-- Local error string returned by workspace-scoped tools when
`TWIST_WORKSPACE_ID` is unset or empty. -/
def missingWsMsg : String := "Error: TWIST_WORKSPACE_ID environment variable is required"

/-- Parameter mapping built by `twist_inbox_get`: the configured
workspace, then each supplied optional argument in source order. -/
def twist_inbox_get_params (workspace_id : String) (limit : Option Int)
    (newer_than_ts : Option Int) (older_than_ts : Option Int)
    (archive_filter : Option String) (order_by : Option String)
    (exclude_thread_ids : Option (List Int)) : Params :=
  [("workspace_id", PValue.pstr workspace_id)]
    ++ optP "limit" (limit.map PValue.pint)
    ++ optP "newer_than_ts" (newer_than_ts.map PValue.pint)
    ++ optP "older_than_ts" (older_than_ts.map PValue.pint)
    ++ optP "archive_filter" (archive_filter.map PValue.pstr)
    ++ optP "order_by" (order_by.map PValue.pstr)
    ++ optP "exclude_thread_ids" (exclude_thread_ids.map PValue.pintList)

/-- Tool `twist_inbox_get` (`src/inbox.py`): requires the configured
workspace (local error, no request, when missing), GETs `inbox/get`, and
returns the payload, a fixed no-results string on a falsy payload, or an
`Error getting inbox:` string on a raised exception. -/
def twist_inbox_get (http : HttpFn) (tok : String) (envWs : Option String)
    (limit : Option Int) (newer_than_ts : Option Int) (older_than_ts : Option Int)
    (archive_filter : Option String) (order_by : Option String)
    (exclude_thread_ids : Option (List Int)) : ToolResult × List HttpReq :=
  if !pyStrTruthy envWs then (ToolResult.rStr missingWsMsg, [])
  else
    let params := twist_inbox_get_params (envWs.getD "") limit newer_than_ts
      older_than_ts archive_filter order_by exclude_thread_ids
    let r := twist_request http none "inbox/get" params (some tok) "GET"
    (match r.1 with
     | Except.ok d =>
         if !d.truthy then ToolResult.rStr "No inbox threads found"
         else ToolResult.rData d
     | Except.error e => ToolResult.rStr ("Error getting inbox: " ++ e), r.2)

/-- Parameter mapping built by `twist_inbox_archive_all`: the configured
workspace, then `older_than_ts` when supplied. -/
def twist_inbox_archive_all_params (workspace_id : String)
    (older_than_ts : Option Int) : Params :=
  [("workspace_id", PValue.pstr workspace_id)]
    ++ optP "older_than_ts" (older_than_ts.map PValue.pint)

/-- Tool `twist_inbox_archive_all` (`src/inbox.py`): POSTs
`inbox/archive_all` for the configured workspace and returns a fixed
success string, the local missing-workspace error, or an
`Error archiving all inbox threads:` string. -/
def twist_inbox_archive_all (http : HttpFn) (tok : String) (envWs : Option String)
    (older_than_ts : Option Int) : ToolResult × List HttpReq :=
  if !pyStrTruthy envWs then (ToolResult.rStr missingWsMsg, [])
  else
    let params := twist_inbox_archive_all_params (envWs.getD "") older_than_ts
    let r := twist_request http none "inbox/archive_all" params (some tok) "POST"
    (match r.1 with
     | Except.ok _ => ToolResult.rStr "Successfully archived all inbox threads"
     | Except.error e =>
         ToolResult.rStr ("Error archiving all inbox threads: " ++ e), r.2)

/-- Tool `twist_inbox_archive` (`src/inbox.py`): POSTs `inbox/archive`
with the thread id and returns a success string embedding the id, or an
`Error archiving thread:` string. -/
def twist_inbox_archive (http : HttpFn) (tok : String) (id : Int) :
    ToolResult × List HttpReq :=
  let params : Params := [("id", PValue.pint id)]
  let r := twist_request http none "inbox/archive" params (some tok) "POST"
  (match r.1 with
   | Except.ok _ =>
       ToolResult.rStr ("Successfully archived thread with ID: " ++ toString id)
   | Except.error e => ToolResult.rStr ("Error archiving thread: " ++ e), r.2)

/-- Tool `twist_inbox_unarchive` (`src/inbox.py`): POSTs
`inbox/unarchive` with the thread id and returns a success string
embedding the id, or an `Error unarchiving thread:` string. -/
def twist_inbox_unarchive (http : HttpFn) (tok : String) (id : Int) :
    ToolResult × List HttpReq :=
  let params : Params := [("id", PValue.pint id)]
  let r := twist_request http none "inbox/unarchive" params (some tok) "POST"
  (match r.1 with
   | Except.ok _ =>
       ToolResult.rStr ("Successfully unarchived thread with ID: " ++ toString id)
   | Except.error e => ToolResult.rStr ("Error unarchiving thread: " ++ e), r.2)

/-- Tool `twist_inbox_mark_all_read` (`src/inbox.py`): POSTs
`inbox/mark_all_read` for the configured workspace and returns a fixed
success string, the local missing-workspace error, or an
`Error marking all inbox threads as read:` string. -/
def twist_inbox_mark_all_read (http : HttpFn) (tok : String)
    (envWs : Option String) : ToolResult × List HttpReq :=
  if !pyStrTruthy envWs then (ToolResult.rStr missingWsMsg, [])
  else
    let params : Params := [("workspace_id", PValue.pstr (envWs.getD ""))]
    let r := twist_request http none "inbox/mark_all_read" params (some tok) "POST"
    (match r.1 with
     | Except.ok _ => ToolResult.rStr "Successfully marked all inbox threads as read"
     | Except.error e =>
         ToolResult.rStr ("Error marking all inbox threads as read: " ++ e), r.2)

/-- Tool `twist_inbox_get_count` (`src/inbox.py`): GETs
`inbox/get_count` for the configured workspace; returns the payload, the
fixed string `Failed to get inbox count` on a falsy payload, the local
missing-workspace error, or an `Error getting inbox count:` string. -/
def twist_inbox_get_count (http : HttpFn) (tok : String)
    (envWs : Option String) : ToolResult × List HttpReq :=
  if !pyStrTruthy envWs then (ToolResult.rStr missingWsMsg, [])
  else
    let params : Params := [("workspace_id", PValue.pstr (envWs.getD ""))]
    let r := twist_request http none "inbox/get_count" params (some tok) "GET"
    (match r.1 with
     | Except.ok d =>
         if !d.truthy then ToolResult.rStr "Failed to get inbox count"
         else ToolResult.rData d
     | Except.error e => ToolResult.rStr ("Error getting inbox count: " ++ e), r.2)

/-- Tool `twist_threads_getone` (`src/threads.py`): GETs
`threads/getone` with the thread id and returns the payload directly, or
an `Error getting thread:` string. -/
def twist_threads_getone (http : HttpFn) (tok : String) (id : Int) :
    ToolResult × List HttpReq :=
  let params : Params := [("id", PValue.pint id)]
  let r := twist_request http none "threads/getone" params (some tok) "GET"
  (match r.1 with
   | Except.ok d => ToolResult.rData d
   | Except.error e => ToolResult.rStr ("Error getting thread: " ++ e), r.2)

/-- Parameter mapping built by `twist_threads_get`: the required channel
id, then each supplied optional argument, in the declaration order that
the `locals()` comprehension of the source preserves. -/
def twist_threads_get_params (channel_id : Int) (as_ids : Option Bool)
    (filter_by : Option String) (limit : Option Int) (newer_than_ts : Option Int)
    (older_than_ts : Option Int) (before_id : Option Int) (after_id : Option Int)
    (workspace_id : Option Int) (is_pinned : Option Bool) (is_starred : Option Bool)
    (order_by : Option String) (exclude_thread_ids : Option (List Int)) : Params :=
  [("channel_id", PValue.pint channel_id)]
    ++ optP "as_ids" (as_ids.map PValue.pbool)
    ++ optP "filter_by" (filter_by.map PValue.pstr)
    ++ optP "limit" (limit.map PValue.pint)
    ++ optP "newer_than_ts" (newer_than_ts.map PValue.pint)
    ++ optP "older_than_ts" (older_than_ts.map PValue.pint)
    ++ optP "before_id" (before_id.map PValue.pint)
    ++ optP "after_id" (after_id.map PValue.pint)
    ++ optP "workspace_id" (workspace_id.map PValue.pint)
    ++ optP "is_pinned" (is_pinned.map PValue.pbool)
    ++ optP "is_starred" (is_starred.map PValue.pbool)
    ++ optP "order_by" (order_by.map PValue.pstr)
    ++ optP "exclude_thread_ids" (exclude_thread_ids.map PValue.pintList)

/-- Tool `twist_threads_get` (`src/threads.py`): GETs `threads/get` and
returns the payload, the fixed string `No threads found` on a falsy
payload, or an `Error getting threads:` string. -/
def twist_threads_get (http : HttpFn) (tok : String) (channel_id : Int)
    (as_ids : Option Bool) (filter_by : Option String) (limit : Option Int)
    (newer_than_ts : Option Int) (older_than_ts : Option Int)
    (before_id : Option Int) (after_id : Option Int) (workspace_id : Option Int)
    (is_pinned : Option Bool) (is_starred : Option Bool) (order_by : Option String)
    (exclude_thread_ids : Option (List Int)) : ToolResult × List HttpReq :=
  let params := twist_threads_get_params channel_id as_ids filter_by limit
    newer_than_ts older_than_ts before_id after_id workspace_id is_pinned
    is_starred order_by exclude_thread_ids
  let r := twist_request http none "threads/get" params (some tok) "GET"
  (match r.1 with
   | Except.ok d =>
       if !d.truthy then ToolResult.rStr "No threads found"
       else ToolResult.rData d
   | Except.error e => ToolResult.rStr ("Error getting threads: " ++ e), r.2)

/-- Conversion of the `recipients` argument of `twist_threads_add`
(either a list of user ids or the string `EVERYONE`) to a parameter
value. -/
def recipientsToP : Sum (List Int) String → PValue
  | Sum.inl l => PValue.pintList l
  | Sum.inr s => PValue.pstr s

/-- Parameter mapping built by `twist_threads_add`: the required channel
id, title and content, then each supplied optional argument in
declaration order.  The dict-list payloads `actions` and `attachments`
are opaque tags. -/
def twist_threads_add_params (channel_id : Int) (title : String) (content : String)
    (actions : Option Nat) (attachments : Option Nat)
    (direct_group_mentions : Option (List Int)) (direct_mentions : Option (List Int))
    (groups : Option (List Int)) (recipients : Option (Sum (List Int) String))
    (send_as_integration : Option Bool) (temp_id : Option Int) : Params :=
  [("channel_id", PValue.pint channel_id), ("title", PValue.pstr title),
   ("content", PValue.pstr content)]
    ++ optP "actions" (actions.map PValue.pdictList)
    ++ optP "attachments" (attachments.map PValue.pdictList)
    ++ optP "direct_group_mentions" (direct_group_mentions.map PValue.pintList)
    ++ optP "direct_mentions" (direct_mentions.map PValue.pintList)
    ++ optP "groups" (groups.map PValue.pintList)
    ++ optP "recipients" (recipients.map recipientsToP)
    ++ optP "send_as_integration" (send_as_integration.map PValue.pbool)
    ++ optP "temp_id" (temp_id.map PValue.pint)

/-- Tool `twist_threads_add` (`src/threads.py`): POSTs `threads/add`; on
success it reads `thread_data.get(\x27id\x27)` for its log line (which
raises on a non-dict payload, and the handler converts that to an error
string too) and returns the payload; raised exceptions become an
`Error adding thread:` string. -/
def twist_threads_add (http : HttpFn) (tok : String) (channel_id : Int)
    (title : String) (content : String) (actions : Option Nat)
    (attachments : Option Nat) (direct_group_mentions : Option (List Int))
    (direct_mentions : Option (List Int)) (groups : Option (List Int))
    (recipients : Option (Sum (List Int) String)) (send_as_integration : Option Bool)
    (temp_id : Option Int) : ToolResult × List HttpReq :=
  let params := twist_threads_add_params channel_id title content actions
    attachments direct_group_mentions direct_mentions groups recipients
    send_as_integration temp_id
  let r := twist_request http none "threads/add" params (some tok) "POST"
  (match r.1 with
   | Except.ok d =>
       match pyGetId d with
       | Except.ok _ => ToolResult.rData d
       | Except.error e => ToolResult.rStr ("Error adding thread: " ++ e)
   | Except.error e => ToolResult.rStr ("Error adding thread: " ++ e), r.2)

/-- Parameter mapping built by `twist_threads_update`: the required
thread id, then each supplied optional argument in declaration order. -/
def twist_threads_update_params (id : Int) (actions : Option Nat)
    (attachments : Option Nat) (content : Option String)
    (direct_group_mentions : Option (List Int)) (direct_mentions : Option (List Int))
    (title : Option String) : Params :=
  [("id", PValue.pint id)]
    ++ optP "actions" (actions.map PValue.pdictList)
    ++ optP "attachments" (attachments.map PValue.pdictList)
    ++ optP "content" (content.map PValue.pstr)
    ++ optP "direct_group_mentions" (direct_group_mentions.map PValue.pintList)
    ++ optP "direct_mentions" (direct_mentions.map PValue.pintList)
    ++ optP "title" (title.map PValue.pstr)

/-- Tool `twist_threads_update` (`src/threads.py`): POSTs
`threads/update` and returns the payload directly, or an
`Error updating thread:` string. -/
def twist_threads_update (http : HttpFn) (tok : String) (id : Int)
    (actions : Option Nat) (attachments : Option Nat) (content : Option String)
    (direct_group_mentions : Option (List Int)) (direct_mentions : Option (List Int))
    (title : Option String) : ToolResult × List HttpReq :=
  let params := twist_threads_update_params id actions attachments content
    direct_group_mentions direct_mentions title
  let r := twist_request http none "threads/update" params (some tok) "POST"
  (match r.1 with
   | Except.ok d => ToolResult.rData d
   | Except.error e => ToolResult.rStr ("Error updating thread: " ++ e), r.2)

/-- Tool `twist_threads_remove` (`src/threads.py`): POSTs
`threads/remove` with the thread id and returns a success string
embedding the id, or an `Error removing thread:` string. -/
def twist_threads_remove (http : HttpFn) (tok : String) (id : Int) :
    ToolResult × List HttpReq :=
  let params : Params := [("id", PValue.pint id)]
  let r := twist_request http none "threads/remove" params (some tok) "POST"
  (match r.1 with
   | Except.ok _ =>
       ToolResult.rStr ("Successfully removed thread with ID: " ++ toString id)
   | Except.error e => ToolResult.rStr ("Error removing thread: " ++ e), r.2)

/-- Tool `twist_threads_star` (`src/threads.py`): POSTs `threads/star`
with the thread id and returns a success string embedding the id, or an
`Error starring thread:` string. -/
def twist_threads_star (http : HttpFn) (tok : String) (id : Int) :
    ToolResult × List HttpReq :=
  let params : Params := [("id", PValue.pint id)]
  let r := twist_request http none "threads/star" params (some tok) "POST"
  (match r.1 with
   | Except.ok _ =>
       ToolResult.rStr ("Successfully starred thread with ID: " ++ toString id)
   | Except.error e => ToolResult.rStr ("Error starring thread: " ++ e), r.2)

/-- Tool `twist_threads_unstar` (`src/threads.py`): POSTs
`threads/unstar` with the thread id and returns a success string
embedding the id, or an `Error unstarring thread:` string. -/
def twist_threads_unstar (http : HttpFn) (tok : String) (id : Int) :
    ToolResult × List HttpReq :=
  let params : Params := [("id", PValue.pint id)]
  let r := twist_request http none "threads/unstar" params (some tok) "POST"
  (match r.1 with
   | Except.ok _ =>
       ToolResult.rStr ("Successfully unstarred thread with ID: " ++ toString id)
   | Except.error e => ToolResult.rStr ("Error unstarring thread: " ++ e), r.2)

/-- Tool `twist_threads_pin` (`src/threads.py`): POSTs `threads/pin`
with the thread id and returns a success string embedding the id, or an
`Error pinning thread:` string. -/
def twist_threads_pin (http : HttpFn) (tok : String) (id : Int) :
    ToolResult × List HttpReq :=
  let params : Params := [("id", PValue.pint id)]
  let r := twist_request http none "threads/pin" params (some tok) "POST"
  (match r.1 with
   | Except.ok _ =>
       ToolResult.rStr ("Successfully pinned thread with ID: " ++ toString id)
   | Except.error e => ToolResult.rStr ("Error pinning thread: " ++ e), r.2)

/-- Tool `twist_threads_unpin` (`src/threads.py`): POSTs `threads/unpin`
with the thread id and returns a success string embedding the id, or an
`Error unpinning thread:` string. -/
def twist_threads_unpin (http : HttpFn) (tok : String) (id : Int) :
    ToolResult × List HttpReq :=
  let params : Params := [("id", PValue.pint id)]
  let r := twist_request http none "threads/unpin" params (some tok) "POST"
  (match r.1 with
   | Except.ok _ =>
       ToolResult.rStr ("Successfully unpinned thread with ID: " ++ toString id)
   | Except.error e => ToolResult.rStr ("Error unpinning thread: " ++ e), r.2)

/-- Tool `twist_threads_move_to_channel` (`src/threads.py`): POSTs
`threads/move_to_channel` with the thread id and target channel and
returns a success string embedding both, or an `Error moving thread:`
string. -/
def twist_threads_move_to_channel (http : HttpFn) (tok : String) (id : Int)
    (to_channel : Int) : ToolResult × List HttpReq :=
  let params : Params := [("id", PValue.pint id), ("to_channel", PValue.pint to_channel)]
  let r := twist_request http none "threads/move_to_channel" params (some tok) "POST"
  (match r.1 with
   | Except.ok _ =>
       ToolResult.rStr ("Successfully moved thread with ID: " ++ toString id
         ++ " to channel: " ++ toString to_channel)
   | Except.error e => ToolResult.rStr ("Error moving thread: " ++ e), r.2)

/-- Tool `twist_threads_get_unread` (`src/threads.py`): GETs
`threads/get_unread` for the configured workspace; returns the payload,
the fixed string `No unread threads found` on a falsy payload, the local
missing-workspace error, or an `Error getting unread threads:` string. -/
def twist_threads_get_unread (http : HttpFn) (tok : String)
    (envWs : Option String) : ToolResult × List HttpReq :=
  if !pyStrTruthy envWs then (ToolResult.rStr missingWsMsg, [])
  else
    let params : Params := [("workspace_id", PValue.pstr (envWs.getD ""))]
    let r := twist_request http none "threads/get_unread" params (some tok) "GET"
    (match r.1 with
     | Except.ok d =>
         if !d.truthy then ToolResult.rStr "No unread threads found"
         else ToolResult.rData d
     | Except.error e => ToolResult.rStr ("Error getting unread threads: " ++ e), r.2)

/-- Tool `twist_threads_mark_read` (`src/threads.py`): POSTs
`threads/mark_read` with the thread id and comment index and returns a
success string embedding both, or an `Error marking thread as read:`
string. -/
def twist_threads_mark_read (http : HttpFn) (tok : String) (id : Int)
    (obj_index : Int) : ToolResult × List HttpReq :=
  let params : Params := [("id", PValue.pint id), ("obj_index", PValue.pint obj_index)]
  let r := twist_request http none "threads/mark_read" params (some tok) "POST"
  (match r.1 with
   | Except.ok _ =>
       ToolResult.rStr ("Successfully marked thread with ID: " ++ toString id
         ++ " as read up to comment index: " ++ toString obj_index)
   | Except.error e => ToolResult.rStr ("Error marking thread as read: " ++ e), r.2)

/-- Tool `twist_threads_mark_unread` (`src/threads.py`): POSTs
`threads/mark_unread` with the thread id and comment index and returns a
success string embedding both, or an `Error marking thread as unread:`
string. -/
def twist_threads_mark_unread (http : HttpFn) (tok : String) (id : Int)
    (obj_index : Int) : ToolResult × List HttpReq :=
  let params : Params := [("id", PValue.pint id), ("obj_index", PValue.pint obj_index)]
  let r := twist_request http none "threads/mark_unread" params (some tok) "POST"
  (match r.1 with
   | Except.ok _ =>
       ToolResult.rStr ("Successfully marked thread with ID: " ++ toString id
         ++ " as unread from comment index: " ++ toString obj_index)
   | Except.error e => ToolResult.rStr ("Error marking thread as unread: " ++ e), r.2)

/-- Tool `twist_threads_mark_unread_for_others` (`src/threads.py`):
POSTs `threads/mark_unread_for_others` with the thread id and comment
index and returns a success string embedding both, or an
`Error marking thread as unread for others:` string. -/
def twist_threads_mark_unread_for_others (http : HttpFn) (tok : String) (id : Int)
    (obj_index : Int) : ToolResult × List HttpReq :=
  let params : Params := [("id", PValue.pint id), ("obj_index", PValue.pint obj_index)]
  let r := twist_request http none "threads/mark_unread_for_others" params
    (some tok) "POST"
  (match r.1 with
   | Except.ok _ =>
       ToolResult.rStr ("Successfully marked thread with ID: " ++ toString id
         ++ " as unread for others from comment index: " ++ toString obj_index)
   | Except.error e =>
       ToolResult.rStr ("Error marking thread as unread for others: " ++ e), r.2)

/-- Parameter mapping built by `twist_threads_mark_all_read` from the
arguments given by the caller (before any workspace fallback): each supplied
argument in declaration order, `None` dropped. -/
def twist_threads_mark_all_read_params (workspace_id : Option Int)
    (channel_id : Option Int) : Params :=
  optP "workspace_id" (workspace_id.map PValue.pint)
    ++ optP "channel_id" (channel_id.map PValue.pint)

/-- Shared continuation of `twist_threads_mark_all_read` once the final
parameter mapping is known: POSTs `threads/mark_all_read` and reports
success against the channel entry when present, otherwise against the
workspace entry (always present on that branch), or converts a raised
exception to an `Error marking all threads as read:` string. -/
def twist_threads_mark_all_read_go (http : HttpFn) (tok : String)
    (params : Params) : ToolResult × List HttpReq :=
  let r := twist_request http none "threads/mark_all_read" params (some tok) "POST"
  (match r.1 with
   | Except.ok _ =>
       match dictGet params "channel_id" with
       | some cv =>
           ToolResult.rStr ("Successfully marked all threads in channel ID: "
             ++ cv.render ++ " as read")
       | none =>
           ToolResult.rStr ("Successfully marked all threads in workspace ID: "
             ++ (((dictGet params "workspace_id").map PValue.render).getD "")
             ++ " as read")
   | Except.error e =>
       ToolResult.rStr ("Error marking all threads as read: " ++ e), r.2)

/-- Tool `twist_threads_mark_all_read` (`src/threads.py`): builds the
mapping from the supplied arguments; when both `workspace_id` and
`channel_id` are Python-falsy (absent or zero) it consults the
configured workspace — returning a local error with no request when that
is also falsy, otherwise assigning it (a string) under the
`workspace_id` key — and then POSTs `threads/mark_all_read`. -/
def twist_threads_mark_all_read (http : HttpFn) (tok : String)
    (envWs : Option String) (workspace_id : Option Int) (channel_id : Option Int) :
    ToolResult × List HttpReq :=
  let params := twist_threads_mark_all_read_params workspace_id channel_id
  if !pyOptIntTruthy workspace_id && !pyOptIntTruthy channel_id then
    if !pyStrTruthy envWs then
      (ToolResult.rStr "Error: Either workspace_id or channel_id is required", [])
    else
      twist_threads_mark_all_read_go http tok
        (dictSet params "workspace_id" (PValue.pstr (envWs.getD "")))
  else
    twist_threads_mark_all_read_go http tok params

/-- Tool `twist_threads_clear_unread` (`src/threads.py`): POSTs
`threads/clear_unread` for the configured workspace and returns a fixed
success string, the local missing-workspace error, or an
`Error clearing unread threads:` string. -/
def twist_threads_clear_unread (http : HttpFn) (tok : String)
    (envWs : Option String) : ToolResult × List HttpReq :=
  if !pyStrTruthy envWs then (ToolResult.rStr missingWsMsg, [])
  else
    let params : Params := [("workspace_id", PValue.pstr (envWs.getD ""))]
    let r := twist_request http none "threads/clear_unread" params (some tok) "POST"
    (match r.1 with
     | Except.ok _ => ToolResult.rStr "Successfully cleared unread threads"
     | Except.error e =>
         ToolResult.rStr ("Error clearing unread threads: " ++ e), r.2)

/-- Tool `twist_threads_mute` (`src/threads.py`): POSTs `threads/mute`
with the thread id and minute count and returns the payload directly, or
an `Error muting thread:` string. -/
def twist_threads_mute (http : HttpFn) (tok : String) (id : Int) (minutes : Int) :
    ToolResult × List HttpReq :=
  let params : Params := [("id", PValue.pint id), ("minutes", PValue.pint minutes)]
  let r := twist_request http none "threads/mute" params (some tok) "POST"
  (match r.1 with
   | Except.ok d => ToolResult.rData d
   | Except.error e => ToolResult.rStr ("Error muting thread: " ++ e), r.2)

/-- Tool `twist_threads_unmute` (`src/threads.py`): POSTs
`threads/unmute` with the thread id and returns the payload directly, or
an `Error unmuting thread:` string. -/
def twist_threads_unmute (http : HttpFn) (tok : String) (id : Int) :
    ToolResult × List HttpReq :=
  let params : Params := [("id", PValue.pint id)]
  let r := twist_request http none "threads/unmute" params (some tok) "POST"
  (match r.1 with
   | Except.ok d => ToolResult.rData d
   | Except.error e => ToolResult.rStr ("Error unmuting thread: " ++ e), r.2)

/-- Names of the tool functions registered with the MCP server at
startup: `main.py` registers exactly one, `mcp.tool()(twist_inbox_get)`. -/
def registeredTools : List String := ["twist_inbox_get"]

/-- Modelled from the spec: the fixed tool catalog of section 2 of the
specification (six inbox operations and eighteen thread operations),
written as the names of the corresponding handler functions, which are
the names the tool-invocation protocol would register them under. -/
def specToolCatalog : List String :=
  ["twist_inbox_get", "twist_inbox_archive", "twist_inbox_archive_all",
   "twist_inbox_unarchive", "twist_inbox_mark_all_read", "twist_inbox_get_count",
   "twist_threads_getone", "twist_threads_get", "twist_threads_add",
   "twist_threads_update", "twist_threads_remove", "twist_threads_star",
   "twist_threads_unstar", "twist_threads_pin", "twist_threads_unpin",
   "twist_threads_move_to_channel", "twist_threads_get_unread",
   "twist_threads_mark_read", "twist_threads_mark_unread",
   "twist_threads_mark_unread_for_others", "twist_threads_mark_all_read",
   "twist_threads_clear_unread", "twist_threads_mute", "twist_threads_unmute"]

/-- First-defined-wins combination of two optional lookups, used to
decompose `dictGet` over list concatenation. -/
def optOr (a b : Option PValue) : Option PValue :=
  match a with
  | some v => some v
  | none => b

@[simp] theorem optOr_none (b : Option PValue) : optOr none b = b := rfl

@[simp] theorem optOr_some (v : PValue) (b : Option PValue) :
    optOr (some v) b = some v := rfl

@[simp] theorem dictGet_nil (k : String) : dictGet [] k = none := rfl

theorem dictGet_cons (k1 k : String) (v : PValue) (d : Params) :
    dictGet ((k1, v) :: d) k = if k1 = k then some v else dictGet d k := rfl

@[simp] theorem dictGet_append (a b : Params) (k : String) :
    dictGet (a ++ b) k = optOr (dictGet a k) (dictGet b k) := by
  induction a with
  | nil => simp
  | cons p d ih =>
      obtain ⟨k1, v⟩ := p
      by_cases h : k1 = k <;> simp [dictGet_cons, h, ih]

@[simp] theorem dictGet_optP_same (k : String) (o : Option PValue) :
    dictGet (optP k o) k = o := by
  cases o <;> simp [optP, dictGet]

@[simp] theorem dictGet_optP_diff (k2 k : String) (h : ¬ k2 = k)
    (o : Option PValue) : dictGet (optP k2 o) k = none := by
  cases o <;> simp [optP, dictGet, h]

@[simp] theorem dictGet_dictSet_self (d : Params) (k : String) (v : PValue) :
    dictGet (dictSet d k v) k = some v := by
  induction d with
  | nil => simp [dictSet, dictGet]
  | cons p d ih =>
      obtain ⟨k1, v1⟩ := p
      by_cases h : k1 = k <;> simp [dictSet, dictGet_cons, h, ih]

@[simp] theorem dictGet_dictSet_other (d : Params) (k k2 : String) (v : PValue)
    (h : ¬ k = k2) : dictGet (dictSet d k v) k2 = dictGet d k2 := by
  induction d with
  | nil => simp [dictSet, dictGet_cons, h]
  | cons p d ih =>
      obtain ⟨k1, v1⟩ := p
      by_cases h1 : k1 = k
      · subst h1
        simp [dictSet, dictGet_cons, h]
      · by_cases h2 : k1 = k2
        · subst h2
          simp [dictSet, dictGet_cons, h1]
        · simp [dictSet, dictGet_cons, h1, h2, ih]

/-- Statement that the string `s` carries the marker `p` as its leading
characters (there is a remainder `m` with `s = p ++ m`). -/
def strIsPre (p s : String) : Prop := ∃ m, s = p ++ m

/-- Statement that a tool result is an error string led by the action
marker `p`. -/
def resultHasAction (p : String) (r : ToolResult) : Prop :=
  ∃ m, r = ToolResult.rStr (p ++ m)

theorem string_data_append (s t : String) : (s ++ t).data = s.data ++ t.data := rfl

/-- Criterion for refuting `strIsPre`: if the leading characters of `s`
differ from those of `p`, then `p` does not lead `s`. -/
theorem not_strIsPre_of_take (p s : String)
    (h : s.data.take p.data.length ≠ p.data) : ¬ strIsPre p s := by
  rintro ⟨m, rfl⟩
  exact h (by rw [string_data_append, List.take_left])

/-- Criterion for refuting `resultHasAction` on an error string. -/
theorem not_resultHasAction_of_take (p s : String)
    (h : s.data.take p.data.length ≠ p.data) :
    ¬ resultHasAction p (ToolResult.rStr s) := by
  rintro ⟨m, hm⟩
  exact not_strIsPre_of_take p s h ⟨m, by injection hm⟩

@[simp] theorem optOr_none_right (a : Option PValue) : optOr a none = a := by
  cases a <;> rfl

/-- C1, counterexample: the claim that the set of tool names registered
at startup equals the full fixed catalog is false — the catalog contains
`twist_threads_get` (and 22 further names) that startup never registers,
since `main.py` registers only `twist_inbox_get`. -/
theorem claim1_counterexample :
    "twist_threads_get" ∈ specToolCatalog
      ∧ "twist_threads_get" ∉ registeredTools
      ∧ registeredTools ≠ specToolCatalog := by
  decide

/-- C1, amended: at startup the process registers exactly one tool over
the tool-invocation protocol, `twist_inbox_get`; that name belongs to the
24-name catalog of the spec, but the registered set is a strict subset of
the catalog rather than equal to it. -/
theorem claim1_registered_tools :
    registeredTools = ["twist_inbox_get"]
      ∧ registeredTools.all (fun t => specToolCatalog.contains t) = true
      ∧ specToolCatalog.length = 24
      ∧ registeredTools ≠ specToolCatalog := by
  decide

/-- C5: every workspace-scoped tool other than `threads.mark_all_read`
(`twist_inbox_get`, `twist_inbox_archive_all`, `twist_inbox_mark_all_read`,
`twist_inbox_get_count`, `twist_threads_get_unread`,
`twist_threads_clear_unread`), invoked while `TWIST_WORKSPACE_ID` is
absent, returns the local error string naming that variable and issues
zero HTTP requests, for every transport and every argument list. -/
theorem claim5_missing_workspace_local_error :
    (∀ (http : HttpFn) (tok : String) (l n o : Option Int) (a ob : Option String)
        (ex : Option (List Int)),
      twist_inbox_get http tok none l n o a ob ex = (ToolResult.rStr missingWsMsg, []))
  ∧ (∀ (http : HttpFn) (tok : String) (ots : Option Int),
      twist_inbox_archive_all http tok none ots = (ToolResult.rStr missingWsMsg, []))
  ∧ (∀ (http : HttpFn) (tok : String),
      twist_inbox_mark_all_read http tok none = (ToolResult.rStr missingWsMsg, []))
  ∧ (∀ (http : HttpFn) (tok : String),
      twist_inbox_get_count http tok none = (ToolResult.rStr missingWsMsg, []))
  ∧ (∀ (http : HttpFn) (tok : String),
      twist_threads_get_unread http tok none = (ToolResult.rStr missingWsMsg, []))
  ∧ (∀ (http : HttpFn) (tok : String),
      twist_threads_clear_unread http tok none = (ToolResult.rStr missingWsMsg, [])) := by
  exact ⟨fun _ _ _ _ _ _ _ _ => rfl, fun _ _ _ => rfl, fun _ _ => rfl,
    fun _ _ => rfl, fun _ _ => rfl, fun _ _ => rfl⟩

/-- C9: an environment variable set to the empty string behaves exactly
like an unset one — credential resolution raises its missing-token error
on an empty `TWIST_API_TOKEN`, and each workspace-scoped tool (including
the fallback branch of `twist_threads_mark_all_read`) returns its local
error with no HTTP request on an empty `TWIST_WORKSPACE_ID`, because both
checks test Python truthiness rather than presence. -/
theorem claim9_empty_env_as_unset :
    get_api_client (some "") = get_api_client none
  ∧ get_api_client (some "") =
      Except.error "TWIST_API_TOKEN environment variable is required"
  ∧ (∀ (http : HttpFn) (tok : String) (l n o : Option Int) (a ob : Option String)
        (ex : Option (List Int)),
      twist_inbox_get http tok (some "") l n o a ob ex =
        twist_inbox_get http tok none l n o a ob ex)
  ∧ (∀ (http : HttpFn) (tok : String) (l n o : Option Int) (a ob : Option String)
        (ex : Option (List Int)),
      twist_inbox_get http tok (some "") l n o a ob ex =
        (ToolResult.rStr missingWsMsg, []))
  ∧ (∀ (http : HttpFn) (tok : String) (ots : Option Int),
      twist_inbox_archive_all http tok (some "") ots = (ToolResult.rStr missingWsMsg, []))
  ∧ (∀ (http : HttpFn) (tok : String),
      twist_inbox_mark_all_read http tok (some "") = (ToolResult.rStr missingWsMsg, []))
  ∧ (∀ (http : HttpFn) (tok : String),
      twist_inbox_get_count http tok (some "") = (ToolResult.rStr missingWsMsg, []))
  ∧ (∀ (http : HttpFn) (tok : String),
      twist_threads_get_unread http tok (some "") = (ToolResult.rStr missingWsMsg, []))
  ∧ (∀ (http : HttpFn) (tok : String),
      twist_threads_clear_unread http tok (some "") = (ToolResult.rStr missingWsMsg, []))
  ∧ (∀ (http : HttpFn) (tok : String),
      twist_threads_mark_all_read http tok (some "") none none =
        (ToolResult.rStr "Error: Either workspace_id or channel_id is required", [])) := by
  exact ⟨rfl, rfl, fun _ _ _ _ _ _ _ _ => rfl, fun _ _ _ _ _ _ _ _ => rfl,
    fun _ _ _ => rfl, fun _ _ => rfl, fun _ _ => rfl, fun _ _ => rfl,
    fun _ _ => rfl, fun _ _ => rfl⟩

/-- C7: a `twist_request` call with any verb other than GET or POST
fails with the `Unsupported HTTP method` error while issuing zero HTTP
requests; a GET call issues exactly one request carrying the parameters
as its query string (empty body), and a POST call issues exactly one
request carrying them as its form body (empty query string). -/
theorem claim7_gateway_methods (http : HttpFn) (envTok : Option String)
    (endpoint : String) (params : Params) (tok method2 : String) :
    (method2 ≠ "GET" → method2 ≠ "POST" →
      twist_request http envTok endpoint params (some tok) method2 =
        (Except.error ("Unsupported HTTP method: " ++ method2), []))
  ∧ twist_request http envTok endpoint params (some tok) "GET" =
      (http (mkGetReq endpoint tok params), [mkGetReq endpoint tok params])
  ∧ twist_request http envTok endpoint params (some tok) "POST" =
      (http (mkPostReq endpoint tok params), [mkPostReq endpoint tok params])
  ∧ (mkGetReq endpoint tok params).queryParams = params
  ∧ (mkGetReq endpoint tok params).bodyParams = []
  ∧ (mkPostReq endpoint tok params).bodyParams = params
  ∧ (mkPostReq endpoint tok params).queryParams = [] := by
  refine ⟨fun h1 h2 => ?_, ?_, ?_, rfl, rfl, rfl, rfl⟩
  · simp [twist_request, h1, h2]
  · rfl
  · rfl

/-- C7, witness: a DELETE call fails with the unsupported-method error
and no request is issued. -/
theorem claim7_witness :
    twist_request stubHttp none "threads/remove" [] (some "t") "DELETE" =
      (Except.error ("Unsupported HTTP method: " ++ "DELETE"), []) :=
  (claim7_gateway_methods stubHttp none "threads/remove" [] "t" "DELETE").1
    (by decide) (by decide)

/-- C10: when the gateway responds successfully to `threads/add` but the
decoded payload is not a dict, the success path of the handler raises an
`AttributeError` reading the new thread id, catches it, and returns an
`Error adding thread:` string — even though exactly one HTTP request was
issued and succeeded. -/
theorem claim10_add_nondict_response (resp : PyObj) (hd : resp.isDict = false)
    (tok : String) (ch : Int) (title content : String) (ac att : Option Nat)
    (dgm dm g : Option (List Int)) (rcp : Option (Sum (List Int) String))
    (sai : Option Bool) (tid : Option Int) :
    (twist_threads_add (constHttp resp) tok ch title content ac att dgm dm g
        rcp sai tid).1 =
      ToolResult.rStr ("Error adding thread: " ++ pyNoGetAttrMsg resp)
  ∧ (twist_threads_add (constHttp resp) tok ch title content ac att dgm dm g
        rcp sai tid).2 =
      [mkPostReq "threads/add" tok (twist_threads_add_params ch title content ac
        att dgm dm g rcp sai tid)] := by
  constructor
  · cases resp <;>
      simp_all [twist_threads_add, twist_request, constHttp, pyGetId, PyObj.isDict]
  · rfl

/-- C10, witness: a successful JSON-array response to `threads/add`
yields the `AttributeError`-derived error string. -/
theorem claim10_witness :
    (twist_threads_add (constHttp (PyObj.pylist 1)) "t" 1 "a" "b" none none none
        none none none none none).1 =
      ToolResult.rStr "Error adding thread: \x27list\x27 object has no attribute \x27get\x27" :=
  ((claim10_add_nondict_response (PyObj.pylist 1) rfl "t" 1 "a" "b" none none
    none none none none none none).1).trans (by decide)

/-- C6: each "get" style tool, on a successful gateway response, returns
the decoded payload directly when it is truthy and its fixed
human-readable no-results string when it is empty/falsy — in particular
`twist_inbox_get_count` maps a falsy payload to the literal
`Failed to get inbox count`. -/
theorem claim6_get_result_shaping (resp : PyObj) (w tok : String)
    (hw : pyStrTruthy (some w) = true) :
    (∀ (l n o : Option Int) (a ob : Option String) (ex : Option (List Int)),
      (twist_inbox_get (constHttp resp) tok (some w) l n o a ob ex).1 =
        if resp.truthy then ToolResult.rData resp
        else ToolResult.rStr "No inbox threads found")
  ∧ (∀ (ch : Int) (ai : Option Bool) (fb : Option String)
        (l nts ots bi afi wsi : Option Int) (ip st : Option Bool)
        (ob : Option String) (ex : Option (List Int)),
      (twist_threads_get (constHttp resp) tok ch ai fb l nts ots bi afi wsi ip
          st ob ex).1 =
        if resp.truthy then ToolResult.rData resp
        else ToolResult.rStr "No threads found")
  ∧ ((twist_threads_get_unread (constHttp resp) tok (some w)).1 =
        if resp.truthy then ToolResult.rData resp
        else ToolResult.rStr "No unread threads found")
  ∧ ((twist_inbox_get_count (constHttp resp) tok (some w)).1 =
        if resp.truthy then ToolResult.rData resp
        else ToolResult.rStr "Failed to get inbox count") := by
  refine ⟨fun l n o a ob ex => ?_, fun ch ai fb l nts ots bi afi wsi ip st ob ex => ?_,
    ?_, ?_⟩ <;>
  · simp [twist_inbox_get, twist_threads_get, twist_threads_get_unread,
      twist_inbox_get_count, hw, twist_request, constHttp]
    by_cases h : resp.truthy <;> simp [h]

/-- C6, witness: `twist_inbox_get_count` against a gateway returning the
empty dict returns the literal failure string. -/
theorem claim6_witness :
    (twist_inbox_get_count (constHttp (PyObj.pydict [])) "t" (some "1")).1 =
      ToolResult.rStr "Failed to get inbox count" :=
  ((claim6_get_result_shaping (PyObj.pydict []) "1" "t" (by decide)).2.2.2).trans
    (by decide)

/-- C2, counterexample: the claim that a supplied `channel_id` or
`workspace_id` is used exactly as supplied with no workspace fallback is
false — calling `twist_threads_mark_all_read` with `channel_id = 0`
supplied and a configured default workspace `42` sends a mapping that
additionally contains the fallback `workspace_id` entry, because the
precedence test uses Python truthiness and `0` is falsy. -/
theorem claim2_counterexample :
    (twist_threads_mark_all_read stubHttp "t" (some "42") none
        (some 0)).2.map HttpReq.bodyParams =
      [[("channel_id", PValue.pint 0), ("workspace_id", PValue.pstr "42")]]
  ∧ [[("channel_id", PValue.pint 0), ("workspace_id", PValue.pstr "42")]] ≠
      ([[("channel_id", PValue.pint 0)]] : List Params) := by
  decide

/-- C2, amended: `twist_threads_mark_all_read` resolves its target by
Python truthiness — when the caller supplies a nonzero `channel_id` or a
nonzero `workspace_id`, the mapping POSTed to the gateway is exactly the
supplied non-absent values with no fallback even when a default workspace
is configured; when both arguments are absent or zero it falls back to
the configured workspace identifier, assigned (as a string) under the
`workspace_id` key; and when both are absent-or-zero and the configured
default is itself absent or empty, it returns the local error string and
issues no request. -/
theorem claim2_mark_all_read_precedence (http : HttpFn) (tok : String)
    (envWs : Option String) (ws ch : Option Int) :
    ((pyOptIntTruthy ws || pyOptIntTruthy ch) = true →
      (twist_threads_mark_all_read http tok envWs ws ch).2 =
        [mkPostReq "threads/mark_all_read" tok
          (twist_threads_mark_all_read_params ws ch)])
  ∧ (∀ w : String, envWs = some w → pyStrTruthy (some w) = true →
      (pyOptIntTruthy ws || pyOptIntTruthy ch) = false →
      (twist_threads_mark_all_read http tok envWs ws ch).2 =
        [mkPostReq "threads/mark_all_read" tok
          (dictSet (twist_threads_mark_all_read_params ws ch) "workspace_id"
            (PValue.pstr w))])
  ∧ (pyStrTruthy envWs = false → (pyOptIntTruthy ws || pyOptIntTruthy ch) = false →
      twist_threads_mark_all_read http tok envWs ws ch =
        (ToolResult.rStr "Error: Either workspace_id or channel_id is required",
          [])) := by
  refine ⟨fun h => ?_, fun w henv hw h => ?_, fun henv h => ?_⟩
  · have hc : (!pyOptIntTruthy ws && !pyOptIntTruthy ch) = false := by
      revert h; cases pyOptIntTruthy ws <;> cases pyOptIntTruthy ch <;> simp
    simp [twist_threads_mark_all_read, hc, twist_threads_mark_all_read_go,
      twist_request, mkPostReq]
  · have hc : (!pyOptIntTruthy ws && !pyOptIntTruthy ch) = true := by
      revert h; cases pyOptIntTruthy ws <;> cases pyOptIntTruthy ch <;> simp
    subst henv
    simp [twist_threads_mark_all_read, hc, hw, twist_threads_mark_all_read_go,
      twist_request, mkPostReq]
  · have hc : (!pyOptIntTruthy ws && !pyOptIntTruthy ch) = true := by
      revert h; cases pyOptIntTruthy ws <;> cases pyOptIntTruthy ch <;> simp
    simp [twist_threads_mark_all_read, hc, henv]

/-- C2, witness: `channel_id = 5` supplied with a configured default
workspace `42` POSTs exactly the supplied mapping, with no fallback. -/
theorem claim2_witness :
    (twist_threads_mark_all_read stubHttp "t" (some "42") none (some 5)).2 =
      [mkPostReq "threads/mark_all_read" "t"
        (twist_threads_mark_all_read_params none (some 5))] :=
  (claim2_mark_all_read_precedence stubHttp "t" (some "42") none (some 5)).1
    (by decide)

/-- C3, counterexample: the claim that a key appears in the mapping
passed to the gateway if and only if the caller supplied the
corresponding argument is false for `twist_threads_mark_all_read` — with
no arguments supplied and a configured default workspace `42`, the
mapping sent contains a `workspace_id` entry although the `workspace_id`
argument was absent. -/
theorem claim3_counterexample :
    (twist_threads_mark_all_read stubHttp "t" (some "42") none
        none).2.map HttpReq.bodyParams = [[("workspace_id", PValue.pstr "42")]]
  ∧ dictGet [("workspace_id", PValue.pstr "42")] "workspace_id" ≠
      Option.map PValue.pint (none : Option Int) := by
  decide

/-- C3, amended: for every tool and every optional argument, the mapping
passed to the gateway contains the key of the argument if and only if the
caller supplied a non-absent value, and then with exactly the supplied
value — with the single exception of the documented workspace fallback of
`twist_threads_mark_all_read`, which, when both `workspace_id` and
`channel_id` are absent or zero and a default workspace is configured,
assigns the configured identifier (a string) under the `workspace_id`
key.  Stated as: the lookup of each optional key of each tool equals the
`Option.map` image of the argument, and the issued request carries
exactly that mapping. -/
theorem claim3_params_iff_supplied :
    (∀ (w : String) (l n o : Option Int) (a ob : Option String)
        (ex : Option (List Int)),
      dictGet (twist_inbox_get_params w l n o a ob ex) "limit" =
          Option.map PValue.pint l
      ∧ dictGet (twist_inbox_get_params w l n o a ob ex) "newer_than_ts" =
          Option.map PValue.pint n
      ∧ dictGet (twist_inbox_get_params w l n o a ob ex) "older_than_ts" =
          Option.map PValue.pint o
      ∧ dictGet (twist_inbox_get_params w l n o a ob ex) "archive_filter" =
          Option.map PValue.pstr a
      ∧ dictGet (twist_inbox_get_params w l n o a ob ex) "order_by" =
          Option.map PValue.pstr ob
      ∧ dictGet (twist_inbox_get_params w l n o a ob ex) "exclude_thread_ids" =
          Option.map PValue.pintList ex)
  ∧ (∀ (http : HttpFn) (tok w : String) (l n o : Option Int) (a ob : Option String)
        (ex : Option (List Int)), pyStrTruthy (some w) = true →
      (twist_inbox_get http tok (some w) l n o a ob ex).2 =
        [mkGetReq "inbox/get" tok (twist_inbox_get_params w l n o a ob ex)])
  ∧ (∀ (w : String) (ots : Option Int),
      dictGet (twist_inbox_archive_all_params w ots) "older_than_ts" =
        Option.map PValue.pint ots)
  ∧ (∀ (http : HttpFn) (tok w : String) (ots : Option Int),
      pyStrTruthy (some w) = true →
      (twist_inbox_archive_all http tok (some w) ots).2 =
        [mkPostReq "inbox/archive_all" tok (twist_inbox_archive_all_params w ots)])
  ∧ (∀ (ch : Int) (ai : Option Bool) (fb : Option String)
        (l nts ots bi afi wsi : Option Int) (ip st : Option Bool)
        (ob : Option String) (ex : Option (List Int)),
      dictGet (twist_threads_get_params ch ai fb l nts ots bi afi wsi ip st ob ex)
          "as_ids" = Option.map PValue.pbool ai
      ∧ dictGet (twist_threads_get_params ch ai fb l nts ots bi afi wsi ip st ob ex)
          "filter_by" = Option.map PValue.pstr fb
      ∧ dictGet (twist_threads_get_params ch ai fb l nts ots bi afi wsi ip st ob ex)
          "limit" = Option.map PValue.pint l
      ∧ dictGet (twist_threads_get_params ch ai fb l nts ots bi afi wsi ip st ob ex)
          "newer_than_ts" = Option.map PValue.pint nts
      ∧ dictGet (twist_threads_get_params ch ai fb l nts ots bi afi wsi ip st ob ex)
          "older_than_ts" = Option.map PValue.pint ots
      ∧ dictGet (twist_threads_get_params ch ai fb l nts ots bi afi wsi ip st ob ex)
          "before_id" = Option.map PValue.pint bi
      ∧ dictGet (twist_threads_get_params ch ai fb l nts ots bi afi wsi ip st ob ex)
          "after_id" = Option.map PValue.pint afi
      ∧ dictGet (twist_threads_get_params ch ai fb l nts ots bi afi wsi ip st ob ex)
          "workspace_id" = Option.map PValue.pint wsi
      ∧ dictGet (twist_threads_get_params ch ai fb l nts ots bi afi wsi ip st ob ex)
          "is_pinned" = Option.map PValue.pbool ip
      ∧ dictGet (twist_threads_get_params ch ai fb l nts ots bi afi wsi ip st ob ex)
          "is_starred" = Option.map PValue.pbool st
      ∧ dictGet (twist_threads_get_params ch ai fb l nts ots bi afi wsi ip st ob ex)
          "order_by" = Option.map PValue.pstr ob
      ∧ dictGet (twist_threads_get_params ch ai fb l nts ots bi afi wsi ip st ob ex)
          "exclude_thread_ids" = Option.map PValue.pintList ex
      ∧ (∀ (http : HttpFn) (tok : String),
          (twist_threads_get http tok ch ai fb l nts ots bi afi wsi ip st ob ex).2 =
            [mkGetReq "threads/get" tok
              (twist_threads_get_params ch ai fb l nts ots bi afi wsi ip st ob ex)]))
  ∧ (∀ (ch : Int) (t c : String) (ac att : Option Nat) (dgm dm g : Option (List Int))
        (rcp : Option (Sum (List Int) String)) (sai : Option Bool) (tid : Option Int),
      dictGet (twist_threads_add_params ch t c ac att dgm dm g rcp sai tid)
          "actions" = Option.map PValue.pdictList ac
      ∧ dictGet (twist_threads_add_params ch t c ac att dgm dm g rcp sai tid)
          "attachments" = Option.map PValue.pdictList att
      ∧ dictGet (twist_threads_add_params ch t c ac att dgm dm g rcp sai tid)
          "direct_group_mentions" = Option.map PValue.pintList dgm
      ∧ dictGet (twist_threads_add_params ch t c ac att dgm dm g rcp sai tid)
          "direct_mentions" = Option.map PValue.pintList dm
      ∧ dictGet (twist_threads_add_params ch t c ac att dgm dm g rcp sai tid)
          "groups" = Option.map PValue.pintList g
      ∧ dictGet (twist_threads_add_params ch t c ac att dgm dm g rcp sai tid)
          "recipients" = Option.map recipientsToP rcp
      ∧ dictGet (twist_threads_add_params ch t c ac att dgm dm g rcp sai tid)
          "send_as_integration" = Option.map PValue.pbool sai
      ∧ dictGet (twist_threads_add_params ch t c ac att dgm dm g rcp sai tid)
          "temp_id" = Option.map PValue.pint tid
      ∧ (∀ (http : HttpFn) (tok : String),
          (twist_threads_add http tok ch t c ac att dgm dm g rcp sai tid).2 =
            [mkPostReq "threads/add" tok
              (twist_threads_add_params ch t c ac att dgm dm g rcp sai tid)]))
  ∧ (∀ (id : Int) (ac att : Option Nat) (c : Option String)
        (dgm dm : Option (List Int)) (t : Option String),
      dictGet (twist_threads_update_params id ac att c dgm dm t) "actions" =
          Option.map PValue.pdictList ac
      ∧ dictGet (twist_threads_update_params id ac att c dgm dm t) "attachments" =
          Option.map PValue.pdictList att
      ∧ dictGet (twist_threads_update_params id ac att c dgm dm t) "content" =
          Option.map PValue.pstr c
      ∧ dictGet (twist_threads_update_params id ac att c dgm dm t)
          "direct_group_mentions" = Option.map PValue.pintList dgm
      ∧ dictGet (twist_threads_update_params id ac att c dgm dm t)
          "direct_mentions" = Option.map PValue.pintList dm
      ∧ dictGet (twist_threads_update_params id ac att c dgm dm t) "title" =
          Option.map PValue.pstr t
      ∧ (∀ (http : HttpFn) (tok : String),
          (twist_threads_update http tok id ac att c dgm dm t).2 =
            [mkPostReq "threads/update" tok
              (twist_threads_update_params id ac att c dgm dm t)]))
  ∧ (∀ (ws ch : Option Int),
      dictGet (twist_threads_mark_all_read_params ws ch) "workspace_id" =
          Option.map PValue.pint ws
      ∧ dictGet (twist_threads_mark_all_read_params ws ch) "channel_id" =
          Option.map PValue.pint ch
      ∧ (∀ (http : HttpFn) (tok : String) (envWs : Option String),
          (pyOptIntTruthy ws || pyOptIntTruthy ch) = true →
          (twist_threads_mark_all_read http tok envWs ws ch).2 =
            [mkPostReq "threads/mark_all_read" tok
              (twist_threads_mark_all_read_params ws ch)]))
  ∧ (∀ (ws ch : Option Int) (w : String),
      dictGet (dictSet (twist_threads_mark_all_read_params ws ch) "workspace_id"
          (PValue.pstr w)) "workspace_id" = some (PValue.pstr w)
      ∧ dictGet (dictSet (twist_threads_mark_all_read_params ws ch) "workspace_id"
          (PValue.pstr w)) "channel_id" = Option.map PValue.pint ch) := by
  refine ⟨fun w l n o a ob ex => ?_, fun http tok w l n o a ob ex hw => ?_,
    fun w ots => ?_, fun http tok w ots hw => ?_,
    fun ch ai fb l nts ots bi afi wsi ip st ob ex => ?_,
    fun ch t c ac att dgm dm g rcp sai tid => ?_,
    fun id ac att c dgm dm t => ?_, fun ws ch => ?_, fun ws ch w => ?_⟩
  · refine ⟨?_, ?_, ?_, ?_, ?_, ?_⟩ <;> simp [twist_inbox_get_params, dictGet_cons]
  · simp [twist_inbox_get, hw, twist_request, mkGetReq]
  · simp [twist_inbox_archive_all_params, dictGet_cons]
  · simp [twist_inbox_archive_all, hw, twist_request, mkPostReq]
  · refine ⟨?_, ?_, ?_, ?_, ?_, ?_, ?_, ?_, ?_, ?_, ?_, ?_, fun http tok => rfl⟩ <;>
      simp [twist_threads_get_params, dictGet_cons]
  · refine ⟨?_, ?_, ?_, ?_, ?_, ?_, ?_, ?_, fun http tok => rfl⟩ <;>
      simp [twist_threads_add_params, dictGet_cons]
  · refine ⟨?_, ?_, ?_, ?_, ?_, ?_, fun http tok => rfl⟩ <;>
      simp [twist_threads_update_params, dictGet_cons]
  · refine ⟨?_, ?_, fun http tok envWs h => ?_⟩
    · simp [twist_threads_mark_all_read_params, dictGet_cons]
    · simp [twist_threads_mark_all_read_params, dictGet_cons]
    · have hc : (!pyOptIntTruthy ws && !pyOptIntTruthy ch) = false := by
        revert h; cases pyOptIntTruthy ws <;> cases pyOptIntTruthy ch <;> simp
      simp [twist_threads_mark_all_read, hc, twist_threads_mark_all_read_go,
        twist_request, mkPostReq]
  · constructor
    · simp
    · simp [twist_threads_mark_all_read_params]

/-- C3, witness: `twist_inbox_get` with only `limit = 7` supplied GETs
`inbox/get` with a mapping whose `limit` entry is exactly `7` and whose
other optional keys are absent. -/
theorem claim3_witness :
    dictGet (twist_inbox_get_params "1" (some 7) none none none none none)
        "limit" = some (PValue.pint 7)
  ∧ dictGet (twist_inbox_get_params "1" (some 7) none none none none none)
        "order_by" = none
  ∧ (twist_inbox_get stubHttp "t" (some "1") (some 7) none none none none
        none).2 =
      [mkGetReq "inbox/get" "t"
        (twist_inbox_get_params "1" (some 7) none none none none none)] :=
  ⟨((claim3_params_iff_supplied.1 "1" (some 7) none none none none none).1),
   ((claim3_params_iff_supplied.1 "1" (some 7) none none none none none).2.2.2.2.1),
   (claim3_params_iff_supplied.2.1 stubHttp "t" "1" (some 7) none none none none
     none (by decide))⟩

/-- C4: every exception raised while building or issuing the request —
modelled by a transport that raises with message `e` on every request —
is caught by the tool and converted to a string of the form
`Error <doing X>: <message>`, for each of the 24 tools; no tool
propagates a failure (each is a total function into `ToolResult`).  In
particular `twist_threads_remove` returns a string starting with
`Error removing thread:`. -/
theorem claim4_errors_converted (e w tok : String)
    (hw : pyStrTruthy (some w) = true) :
    (∀ (l n o : Option Int) (a ob : Option String) (ex : Option (List Int)),
      (twist_inbox_get (raisingHttp e) tok (some w) l n o a ob ex).1 =
        ToolResult.rStr ("Error getting inbox: " ++ e))
  ∧ (∀ (ots : Option Int),
      (twist_inbox_archive_all (raisingHttp e) tok (some w) ots).1 =
        ToolResult.rStr ("Error archiving all inbox threads: " ++ e))
  ∧ (∀ (id : Int), (twist_inbox_archive (raisingHttp e) tok id).1 =
      ToolResult.rStr ("Error archiving thread: " ++ e))
  ∧ (∀ (id : Int), (twist_inbox_unarchive (raisingHttp e) tok id).1 =
      ToolResult.rStr ("Error unarchiving thread: " ++ e))
  ∧ ((twist_inbox_mark_all_read (raisingHttp e) tok (some w)).1 =
      ToolResult.rStr ("Error marking all inbox threads as read: " ++ e))
  ∧ ((twist_inbox_get_count (raisingHttp e) tok (some w)).1 =
      ToolResult.rStr ("Error getting inbox count: " ++ e))
  ∧ (∀ (id : Int), (twist_threads_getone (raisingHttp e) tok id).1 =
      ToolResult.rStr ("Error getting thread: " ++ e))
  ∧ (∀ (ch : Int) (ai : Option Bool) (fb : Option String)
        (l nts ots bi afi wsi : Option Int) (ip st : Option Bool)
        (ob : Option String) (ex : Option (List Int)),
      (twist_threads_get (raisingHttp e) tok ch ai fb l nts ots bi afi wsi ip st
          ob ex).1 = ToolResult.rStr ("Error getting threads: " ++ e))
  ∧ (∀ (ch : Int) (t c : String) (ac att : Option Nat)
        (dgm dm g : Option (List Int)) (rcp : Option (Sum (List Int) String))
        (sai : Option Bool) (tid : Option Int),
      (twist_threads_add (raisingHttp e) tok ch t c ac att dgm dm g rcp sai
          tid).1 = ToolResult.rStr ("Error adding thread: " ++ e))
  ∧ (∀ (id : Int) (ac att : Option Nat) (c : Option String)
        (dgm dm : Option (List Int)) (t : Option String),
      (twist_threads_update (raisingHttp e) tok id ac att c dgm dm t).1 =
        ToolResult.rStr ("Error updating thread: " ++ e))
  ∧ (∀ (id : Int), (twist_threads_remove (raisingHttp e) tok id).1 =
      ToolResult.rStr ("Error removing thread: " ++ e))
  ∧ (∀ (id : Int), (twist_threads_star (raisingHttp e) tok id).1 =
      ToolResult.rStr ("Error starring thread: " ++ e))
  ∧ (∀ (id : Int), (twist_threads_unstar (raisingHttp e) tok id).1 =
      ToolResult.rStr ("Error unstarring thread: " ++ e))
  ∧ (∀ (id : Int), (twist_threads_pin (raisingHttp e) tok id).1 =
      ToolResult.rStr ("Error pinning thread: " ++ e))
  ∧ (∀ (id : Int), (twist_threads_unpin (raisingHttp e) tok id).1 =
      ToolResult.rStr ("Error unpinning thread: " ++ e))
  ∧ (∀ (id toc : Int), (twist_threads_move_to_channel (raisingHttp e) tok id
        toc).1 = ToolResult.rStr ("Error moving thread: " ++ e))
  ∧ ((twist_threads_get_unread (raisingHttp e) tok (some w)).1 =
      ToolResult.rStr ("Error getting unread threads: " ++ e))
  ∧ (∀ (id oi : Int), (twist_threads_mark_read (raisingHttp e) tok id oi).1 =
      ToolResult.rStr ("Error marking thread as read: " ++ e))
  ∧ (∀ (id oi : Int), (twist_threads_mark_unread (raisingHttp e) tok id oi).1 =
      ToolResult.rStr ("Error marking thread as unread: " ++ e))
  ∧ (∀ (id oi : Int),
      (twist_threads_mark_unread_for_others (raisingHttp e) tok id oi).1 =
        ToolResult.rStr ("Error marking thread as unread for others: " ++ e))
  ∧ (∀ (ws ch : Option Int),
      (twist_threads_mark_all_read (raisingHttp e) tok (some w) ws ch).1 =
        ToolResult.rStr ("Error marking all threads as read: " ++ e))
  ∧ ((twist_threads_clear_unread (raisingHttp e) tok (some w)).1 =
      ToolResult.rStr ("Error clearing unread threads: " ++ e))
  ∧ (∀ (id m : Int), (twist_threads_mute (raisingHttp e) tok id m).1 =
      ToolResult.rStr ("Error muting thread: " ++ e))
  ∧ (∀ (id : Int), (twist_threads_unmute (raisingHttp e) tok id).1 =
      ToolResult.rStr ("Error unmuting thread: " ++ e)) := by
  refine ⟨fun l n o a ob ex => ?_, fun ots => ?_, fun id => ?_, fun id => ?_, ?_,
    ?_, fun id => ?_, fun ch ai fb l nts ots bi afi wsi ip st ob ex => ?_,
    fun ch t c ac att dgm dm g rcp sai tid => ?_, fun id ac att c dgm dm t => ?_,
    fun id => ?_, fun id => ?_, fun id => ?_, fun id => ?_, fun id => ?_,
    fun id toc => ?_, ?_, fun id oi => ?_, fun id oi => ?_, fun id oi => ?_,
    fun ws ch => ?_, ?_, fun id m => ?_, fun id => ?_⟩
  · simp [twist_inbox_get, hw, twist_request, raisingHttp]
  · simp [twist_inbox_archive_all, hw, twist_request, raisingHttp]
  · simp [twist_inbox_archive, twist_request, raisingHttp]
  · simp [twist_inbox_unarchive, twist_request, raisingHttp]
  · simp [twist_inbox_mark_all_read, hw, twist_request, raisingHttp]
  · simp [twist_inbox_get_count, hw, twist_request, raisingHttp]
  · simp [twist_threads_getone, twist_request, raisingHttp]
  · simp [twist_threads_get, twist_request, raisingHttp]
  · simp [twist_threads_add, twist_request, raisingHttp]
  · simp [twist_threads_update, twist_request, raisingHttp]
  · simp [twist_threads_remove, twist_request, raisingHttp]
  · simp [twist_threads_star, twist_request, raisingHttp]
  · simp [twist_threads_unstar, twist_request, raisingHttp]
  · simp [twist_threads_pin, twist_request, raisingHttp]
  · simp [twist_threads_unpin, twist_request, raisingHttp]
  · simp [twist_threads_move_to_channel, twist_request, raisingHttp]
  · simp [twist_threads_get_unread, hw, twist_request, raisingHttp]
  · simp [twist_threads_mark_read, twist_request, raisingHttp]
  · simp [twist_threads_mark_unread, twist_request, raisingHttp]
  · simp [twist_threads_mark_unread_for_others, twist_request, raisingHttp]
  · by_cases hc : (!pyOptIntTruthy ws && !pyOptIntTruthy ch) = true <;>
      simp [twist_threads_mark_all_read, hc, hw,
        twist_threads_mark_all_read_go, twist_request, raisingHttp]
  · simp [twist_threads_clear_unread, hw, twist_request, raisingHttp]
  · simp [twist_threads_mute, twist_request, raisingHttp]
  · simp [twist_threads_unmute, twist_request, raisingHttp]

/-- C4, witness: `twist_threads_remove` with `id = 7` against a raising
transport returns the `Error removing thread:`-led string and no
exception escapes. -/
theorem claim4_witness :
    (twist_threads_remove (raisingHttp "boom") "t" 7).1 =
      ToolResult.rStr ("Error removing thread: " ++ "boom") := by
  obtain ⟨-, -, -, -, -, -, -, -, -, -, h, -⟩ :=
    claim4_errors_converted "boom" "1" "t" (by decide)
  exact h 7

/-- C8, counterexample: the claim that every error outcome, including the
locally recovered missing-workspace case, is prefixed with the failing
action is false — `twist_inbox_get` and `twist_threads_get_unread` with
no configured workspace both return the identical local string, which is
not led by the failing action (`Error getting inbox: `). -/
theorem claim8_counterexample :
    (twist_inbox_get stubHttp "t" none none none none none none none).1 =
        ToolResult.rStr missingWsMsg
  ∧ (twist_threads_get_unread stubHttp "t" none).1 = ToolResult.rStr missingWsMsg
  ∧ ¬ resultHasAction "Error getting inbox: " (ToolResult.rStr missingWsMsg) :=
  ⟨rfl, rfl, not_resultHasAction_of_take _ _ (by decide)⟩

/-- C8, amended: callers always receive a `ToolResult` (a string or a
plain payload; the handlers are total, so no fault escapes); every error
outcome caused by a raised exception is a string led by the per-tool
failing-action marker `Error <doing X>: `; the locally recovered
missing-configuration outcomes are instead the fixed strings led only by
the generic marker `Error:`, which does not name the failing action. -/
theorem claim8_error_string_marking (e w tok : String)
    (hw : pyStrTruthy (some w) = true) :
    (∀ (l n o : Option Int) (a ob : Option String) (ex : Option (List Int)),
      resultHasAction "Error getting inbox: "
        ((twist_inbox_get (raisingHttp e) tok (some w) l n o a ob ex).1))
  ∧ (∀ (ots : Option Int), resultHasAction "Error archiving all inbox threads: "
      ((twist_inbox_archive_all (raisingHttp e) tok (some w) ots).1))
  ∧ (∀ (id : Int), resultHasAction "Error archiving thread: "
      ((twist_inbox_archive (raisingHttp e) tok id).1))
  ∧ (∀ (id : Int), resultHasAction "Error unarchiving thread: "
      ((twist_inbox_unarchive (raisingHttp e) tok id).1))
  ∧ resultHasAction "Error marking all inbox threads as read: "
      ((twist_inbox_mark_all_read (raisingHttp e) tok (some w)).1)
  ∧ resultHasAction "Error getting inbox count: "
      ((twist_inbox_get_count (raisingHttp e) tok (some w)).1)
  ∧ (∀ (id : Int), resultHasAction "Error getting thread: "
      ((twist_threads_getone (raisingHttp e) tok id).1))
  ∧ (∀ (ch : Int) (ai : Option Bool) (fb : Option String)
        (l nts ots bi afi wsi : Option Int) (ip st : Option Bool)
        (ob : Option String) (ex : Option (List Int)),
      resultHasAction "Error getting threads: "
        ((twist_threads_get (raisingHttp e) tok ch ai fb l nts ots bi afi wsi ip
          st ob ex).1))
  ∧ (∀ (ch : Int) (t c : String) (ac att : Option Nat)
        (dgm dm g : Option (List Int)) (rcp : Option (Sum (List Int) String))
        (sai : Option Bool) (tid : Option Int),
      resultHasAction "Error adding thread: "
        ((twist_threads_add (raisingHttp e) tok ch t c ac att dgm dm g rcp sai
          tid).1))
  ∧ (∀ (id : Int) (ac att : Option Nat) (c : Option String)
        (dgm dm : Option (List Int)) (t : Option String),
      resultHasAction "Error updating thread: "
        ((twist_threads_update (raisingHttp e) tok id ac att c dgm dm t).1))
  ∧ (∀ (id : Int), resultHasAction "Error removing thread: "
      ((twist_threads_remove (raisingHttp e) tok id).1))
  ∧ (∀ (id : Int), resultHasAction "Error starring thread: "
      ((twist_threads_star (raisingHttp e) tok id).1))
  ∧ (∀ (id : Int), resultHasAction "Error unstarring thread: "
      ((twist_threads_unstar (raisingHttp e) tok id).1))
  ∧ (∀ (id : Int), resultHasAction "Error pinning thread: "
      ((twist_threads_pin (raisingHttp e) tok id).1))
  ∧ (∀ (id : Int), resultHasAction "Error unpinning thread: "
      ((twist_threads_unpin (raisingHttp e) tok id).1))
  ∧ (∀ (id toc : Int), resultHasAction "Error moving thread: "
      ((twist_threads_move_to_channel (raisingHttp e) tok id toc).1))
  ∧ resultHasAction "Error getting unread threads: "
      ((twist_threads_get_unread (raisingHttp e) tok (some w)).1)
  ∧ (∀ (id oi : Int), resultHasAction "Error marking thread as read: "
      ((twist_threads_mark_read (raisingHttp e) tok id oi).1))
  ∧ (∀ (id oi : Int), resultHasAction "Error marking thread as unread: "
      ((twist_threads_mark_unread (raisingHttp e) tok id oi).1))
  ∧ (∀ (id oi : Int),
      resultHasAction "Error marking thread as unread for others: "
        ((twist_threads_mark_unread_for_others (raisingHttp e) tok id oi).1))
  ∧ (∀ (ws ch : Option Int), resultHasAction "Error marking all threads as read: "
      ((twist_threads_mark_all_read (raisingHttp e) tok (some w) ws ch).1))
  ∧ resultHasAction "Error clearing unread threads: "
      ((twist_threads_clear_unread (raisingHttp e) tok (some w)).1)
  ∧ (∀ (id m : Int), resultHasAction "Error muting thread: "
      ((twist_threads_mute (raisingHttp e) tok id m).1))
  ∧ (∀ (id : Int), resultHasAction "Error unmuting thread: "
      ((twist_threads_unmute (raisingHttp e) tok id).1))
  ∧ (∀ (http : HttpFn) (l n o : Option Int) (a ob : Option String)
        (ex : Option (List Int)),
      (twist_inbox_get http tok none l n o a ob ex).1 = ToolResult.rStr missingWsMsg)
  ∧ (∀ (http : HttpFn), (twist_threads_mark_all_read http tok none none none).1 =
      ToolResult.rStr "Error: Either workspace_id or channel_id is required")
  ∧ resultHasAction "Error:" (ToolResult.rStr missingWsMsg)
  ∧ ¬ resultHasAction "Error getting inbox: " (ToolResult.rStr missingWsMsg)
  ∧ resultHasAction "Error:"
      (ToolResult.rStr "Error: Either workspace_id or channel_id is required")
  ∧ ¬ resultHasAction "Error marking all threads as read: "
      (ToolResult.rStr "Error: Either workspace_id or channel_id is required") := by
  refine ⟨fun l n o a ob ex => ⟨e, ?_⟩, fun ots => ⟨e, ?_⟩, fun id => ⟨e, ?_⟩,
    fun id => ⟨e, ?_⟩, ⟨e, ?_⟩, ⟨e, ?_⟩, fun id => ⟨e, ?_⟩,
    fun ch ai fb l nts ots bi afi wsi ip st ob ex => ⟨e, ?_⟩,
    fun ch t c ac att dgm dm g rcp sai tid => ⟨e, ?_⟩,
    fun id ac att c dgm dm t => ⟨e, ?_⟩, fun id => ⟨e, ?_⟩, fun id => ⟨e, ?_⟩,
    fun id => ⟨e, ?_⟩, fun id => ⟨e, ?_⟩, fun id => ⟨e, ?_⟩,
    fun id toc => ⟨e, ?_⟩, ⟨e, ?_⟩, fun id oi => ⟨e, ?_⟩, fun id oi => ⟨e, ?_⟩,
    fun id oi => ⟨e, ?_⟩, fun ws ch => ⟨e, ?_⟩, ⟨e, ?_⟩, fun id m => ⟨e, ?_⟩,
    fun id => ⟨e, ?_⟩, fun http l n o a ob ex => rfl, fun http => rfl,
    ⟨" TWIST_WORKSPACE_ID environment variable is required", by decide⟩,
    not_resultHasAction_of_take _ _ (by decide),
    ⟨" Either workspace_id or channel_id is required", by decide⟩,
    not_resultHasAction_of_take _ _ (by decide)⟩
  · simp [twist_inbox_get, hw, twist_request, raisingHttp]
  · simp [twist_inbox_archive_all, hw, twist_request, raisingHttp]
  · simp [twist_inbox_archive, twist_request, raisingHttp]
  · simp [twist_inbox_unarchive, twist_request, raisingHttp]
  · simp [twist_inbox_mark_all_read, hw, twist_request, raisingHttp]
  · simp [twist_inbox_get_count, hw, twist_request, raisingHttp]
  · simp [twist_threads_getone, twist_request, raisingHttp]
  · simp [twist_threads_get, twist_request, raisingHttp]
  · simp [twist_threads_add, twist_request, raisingHttp]
  · simp [twist_threads_update, twist_request, raisingHttp]
  · simp [twist_threads_remove, twist_request, raisingHttp]
  · simp [twist_threads_star, twist_request, raisingHttp]
  · simp [twist_threads_unstar, twist_request, raisingHttp]
  · simp [twist_threads_pin, twist_request, raisingHttp]
  · simp [twist_threads_unpin, twist_request, raisingHttp]
  · simp [twist_threads_move_to_channel, twist_request, raisingHttp]
  · simp [twist_threads_get_unread, hw, twist_request, raisingHttp]
  · simp [twist_threads_mark_read, twist_request, raisingHttp]
  · simp [twist_threads_mark_unread, twist_request, raisingHttp]
  · simp [twist_threads_mark_unread_for_others, twist_request, raisingHttp]
  · by_cases hc : (!pyOptIntTruthy ws && !pyOptIntTruthy ch) = true <;>
      simp [twist_threads_mark_all_read, hc, hw,
        twist_threads_mark_all_read_go, twist_request, raisingHttp]
  · simp [twist_threads_clear_unread, hw, twist_request, raisingHttp]
  · simp [twist_threads_mute, twist_request, raisingHttp]
  · simp [twist_threads_unmute, twist_request, raisingHttp]

/-- C8, witness: the `twist_threads_remove` error outcome against a
raising transport is led by its failing-action marker. -/
theorem claim8_witness :
    resultHasAction "Error removing thread: "
      ((twist_threads_remove (raisingHttp "boom") "t" 7).1) := by
  obtain ⟨-, -, -, -, -, -, -, -, -, -, h, -⟩ :=
    claim8_error_string_marking "boom" "1" "t" (by decide)
  exact h 7
